import Mathlib

/-!
Shallow embedding of `src/test-suite.js` (class BritEdgeTestSuite).

Conventions of the embedding:
- JS values produced by `response.json()` are modelled by the inductive
  type `Json`; `undefined` is modelled by `none : Option Json`.
- A thrown JS exception is modelled by `Except.error msg`; every check
  routine wraps its body in `tryRecord`, the image of the `try/catch`
  blocks of the source.
- The network is a parameter: a `World` maps a URL to either a thrown
  network error or a `FetchResponse`.  The wall-clock delta that
  `testResponseTimes` measures around a request is carried by the
  response (`elapsed`), and the ISO timestamp field written by
  `logResult` is real wall-clock time and is not modelled.
- JS numbers inside JSON payloads are modelled as integers (the API
  under test returns integral counts); the success-rate arithmetic of
  `generateSummary` is modelled over `ℚ` (an exact idealization of IEEE
  doubles) with the `0 / 0 = NaN` case made explicit.
-/

/-- JSON value as produced by `response.json()` in the source. -/
inductive Json where
  | null
  | bool (b : Bool)
  | num (n : Int)
  | str (s : String)
  | arr (elements : List Json)
  | obj (fields : List (String × Json))

/-- Field lookup in a JS object literal (fields assumed deduplicated,
as a JSON parse always yields). -/
def jsLookup : List (String × Json) → String → Option Json
  | [], _ => none
  | (k, v) :: rest, key => if k == key then some v else jsLookup rest key

/-- JS truthiness of a defined value. -/
def truthy : Json → Bool
  | .null => false
  | .bool b => b
  | .num n => !(n == 0)
  | .str s => !(s == "")
  | .arr _ => true
  | .obj _ => true

/-- JS truthiness where `none` models `undefined`. -/
def truthyU : Option Json → Bool
  | none => false
  | some j => truthy j

/-- Property access `v.k` on a defined value: throws a TypeError on
`null`, yields `undefined` on values without the property.  Arrays and
strings expose `length`. -/
def jsDotD (v : Json) (k : String) : Except String (Option Json) :=
  match v with
  | .null => .error ("Cannot read properties of null (reading " ++ k ++ ")")
  | .obj fs => .ok (jsLookup fs k)
  | .arr es => .ok (if k == "length" then some (.num es.length) else none)
  | .str s => .ok (if k == "length" then some (.num s.length) else none)
  | _ => .ok none

/-- Property access `v.k` where `v` may be `undefined` (throws then). -/
def jsDotU (v : Option Json) (k : String) : Except String (Option Json) :=
  match v with
  | none => .error ("Cannot read properties of undefined (reading " ++ k ++ ")")
  | some j => jsDotD j k

/-- Index access `v[i]` where `v` may be `undefined` or `null` (throws then). -/
def jsIndexU (v : Option Json) (i : Nat) : Except String (Option Json) :=
  match v with
  | none => .error ("Cannot read properties of undefined (reading " ++ toString i ++ ")")
  | some .null => .error ("Cannot read properties of null (reading " ++ toString i ++ ")")
  | some (.arr es) => .ok (es.get? i)
  | some (.obj fs) => .ok (jsLookup fs (toString i))
  | some (.str s) => .ok ((s.data.get? i).map (fun c => .str (String.mk [c])))
  | some _ => .ok none

/-- `Array.isArray` on a possibly-undefined value. -/
def isArrayU : Option Json → Bool
  | some (.arr _) => true
  | _ => false

/-- The JS test `typeof v === "number"` on a possibly-undefined value. -/
def isNumberU : Option Json → Bool
  | some (.num _) => true
  | _ => false

/-- The JS comparison `v > 0` restricted to numbers (the only case the
source reaches; JS string-to-number coercion is outside the model). -/
def numGtZeroU : Option Json → Bool
  | some (.num n) => decide (0 < n)
  | _ => false

/-- Rendering of a numeric value inside a template literal. -/
def showNumU : Option Json → String
  | some (.num n) => toString n
  | _ => "undefined"

/-- The JS test `typeof v === "object"` (true for objects, arrays and null). -/
def jsTypeofIsObject : Json → Bool
  | .null => true
  | .arr _ => true
  | .obj _ => true
  | _ => false

/-- The JS test `v === null`. -/
def jsIsNull : Json → Bool
  | .null => true
  | _ => false

/-- List-of-chars prefix test, the base of `String.prototype.includes`. -/
def isPrefixL : List Char → List Char → Bool
  | [], _ => true
  | _ :: _, [] => false
  | a :: as, b :: bs => a == b && isPrefixL as bs

/-- List-of-chars infix test. -/
def isInfixL (pat : List Char) : List Char → Bool
  | [] => pat.isEmpty
  | c :: rest => isPrefixL pat (c :: rest) || isInfixL pat rest

/-- `s.includes(sub)` of JS strings. -/
def jsIncludes (s sub : String) : Bool :=
  isInfixL sub.data s.data

/-- `s.startsWith(pre)` of JS strings. -/
def jsStartsWith (s pre : String) : Bool :=
  isPrefixL pre.data s.data

/-- One entry of the result log pushed by `logResult`.  The source also
stores an ISO `timestamp` string (real wall-clock time, not modelled). -/
structure TestResult where
  test : String
  status : String
  message : String
  data : Option Json

/-- The record constructed and appended by `logResult(testName, passed,
message, data = null)`; the `console.log` side effect is not modelled. -/
def logResult (testName : String) (passed : Bool) (message : String)
    (data : Option Json) : TestResult :=
  { test := testName
    status := if passed then "PASS" else "FAIL"
    message := message
    data := data }

/-- A fetched response: HTTP status, header map, the outcome of
`response.json()`, the outcome of `response.text()`, and the wall-clock
delta measured around the request. -/
structure FetchResponse where
  status : Nat
  headers : String → Option String
  jsonBody : Except String Json
  textBody : String
  elapsed : Nat

/-- The network: a URL either throws (network error) or responds. -/
structure World where
  fetch : String → Except String FetchResponse

/-- `this.baseURL` of the constructor. -/
def baseURL : String := "https://func-britedge-assignment.azurewebsites.net/api"

/-- `this.websiteURL` of the constructor. -/
def websiteURL : String := "https://thankful-sand-085c06103.2.azurestaticapps.net"

/-- URL of one API resource: `baseURL + "/" + name`. -/
def apiURL (name : String) : String := baseURL ++ "/" ++ name

/-- Image of the `try { ... logResult ... } catch (error) { logResult(..) }`
pattern every check routine uses: the body either produces the one record
of the try block, or the catch produces the error record. -/
def tryRecord (body : Except String TestResult) (onErr : String → TestResult) :
    List TestResult :=
  match body with
  | .ok r => [r]
  | .error e => [onErr e]

/-- Embedding of `testGetBritEdgeInfo` (src/test-suite.js lines 31-54).
The body binds `data = await response.json()` BEFORE inspecting
`response.status`, exactly like the source. -/
def testGetBritEdgeInfo (w : World) : List TestResult :=
  tryRecord (do
    let response ← w.fetch (apiURL "GetBritEdgeInfo")
    let data ← response.jsonBody
    if response.status == 200 then do
      let company ← jsDotD data "company"
      let hasCompany ←
        if truthyU company then do
          let companyName ← jsDotU company "name"
          pure (truthyU companyName)
        else pure false
      let stats ← jsDotD data "stats"
      let hasStats ←
        if truthyU stats then do
          let totalEmployees ← jsDotU stats "totalEmployees"
          pure (isNumberU totalEmployees)
        else pure false
      let locations ← jsDotD data "locations"
      let hasLocations ←
        if isArrayU locations then do
          let len ← jsDotU locations "length"
          pure (numGtZeroU len)
        else pure false
      if hasCompany && hasStats && hasLocations then do
        let stats2 ← jsDotD data "stats"
        let totalEmployees2 ← jsDotU stats2 "totalEmployees"
        let locations2 ← jsDotD data "locations"
        let len2 ← jsDotU locations2 "length"
        pure (logResult "API: GetBritEdgeInfo" true
          ("Valid company data returned (" ++ showNumU totalEmployees2 ++
            " employees, " ++ showNumU len2 ++ " locations)") none)
      else
        pure (logResult "API: GetBritEdgeInfo" false "Invalid response structure" (some data))
    else
      pure (logResult "API: GetBritEdgeInfo" false
        ("HTTP " ++ toString response.status ++ " error") none))
   (fun e => logResult "API: GetBritEdgeInfo" false ("Network error: " ++ e) none)

/-- Embedding of `testGetTestimonials` (src/test-suite.js lines 56-78). -/
def testGetTestimonials (w : World) : List TestResult :=
  tryRecord (do
    let response ← w.fetch (apiURL "GetTestimonials")
    let data ← response.jsonBody
    if response.status == 200 then do
      let testimonials ← jsDotD data "testimonials"
      let hasTestimonials := isArrayU testimonials
      let hasValidStructure ←
        if truthyU testimonials then do
          let len ← jsDotU testimonials "length"
          if numGtZeroU len then do
            let first ← jsIndexU testimonials 0
            let client ← jsDotU first "client"
            if truthyU client then do
              let first2 ← jsIndexU testimonials 0
              let rating ← jsDotU first2 "rating"
              pure (truthyU rating)
            else pure false
          else pure false
        else pure false
      if hasTestimonials && hasValidStructure then do
        let len2 ← jsDotU testimonials "length"
        pure (logResult "API: GetTestimonials" true
          (showNumU len2 ++ " testimonials returned with valid structure") none)
      else
        pure (logResult "API: GetTestimonials" false "Invalid testimonials structure" (some data))
    else
      pure (logResult "API: GetTestimonials" false
        ("HTTP " ++ toString response.status ++ " error") none))
   (fun e => logResult "API: GetTestimonials" false ("Network error: " ++ e) none)

/-- Embedding of `testGetCustomers` (src/test-suite.js lines 80-102). -/
def testGetCustomers (w : World) : List TestResult :=
  tryRecord (do
    let response ← w.fetch (apiURL "GetCustomers")
    let data ← response.jsonBody
    if response.status == 200 then do
      let customers ← jsDotD data "customers"
      let hasCustomers := isArrayU customers
      let hasValidStructure ←
        if truthyU customers then do
          let len ← jsDotU customers "length"
          if numGtZeroU len then do
            let first ← jsIndexU customers 0
            let customerId ← jsDotU first "customerId"
            if truthyU customerId then do
              let first2 ← jsIndexU customers 0
              let companyName ← jsDotU first2 "companyName"
              pure (truthyU companyName)
            else pure false
          else pure false
        else pure false
      if hasCustomers && hasValidStructure then do
        let len2 ← jsDotU customers "length"
        pure (logResult "API: GetCustomers" true
          (showNumU len2 ++ " customers returned with valid structure") none)
      else
        pure (logResult "API: GetCustomers" false "Invalid customers structure" (some data))
    else
      pure (logResult "API: GetCustomers" false
        ("HTTP " ++ toString response.status ++ " error") none))
   (fun e => logResult "API: GetCustomers" false ("Network error: " ++ e) none)

/-- One entry of the `securityTests` array of `testSecurityHeaders`. -/
structure SecTest where
  name : String
  expected : Option String
  containsPat : Option String

/-- The `securityTests` array (src/test-suite.js lines 110-115). -/
def securityTests : List SecTest :=
  [ { name := "X-Frame-Options", expected := some "DENY", containsPat := none }
  , { name := "X-Content-Type-Options", expected := some "nosniff", containsPat := none }
  , { name := "X-XSS-Protection", expected := some "1; mode=block", containsPat := none }
  , { name := "Strict-Transport-Security", expected := none, containsPat := some "max-age=" } ]

/-- Body of the `securityTests.forEach` callback: the first branch fires
when `test.expected` exists and the header equals it exactly, the
`else if` branch when `test.contains` exists, the header is truthy (a
present, nonempty string) and contains the pattern. -/
def secMatch (headers : String → Option String) (t : SecTest) : Bool :=
  let headerValue := headers t.name
  (match t.expected with
   | some exp => headerValue == some exp
   | none => false)
  ||
  (match t.containsPat with
   | some sub =>
     (match headerValue with
      | some v => !(v == "") && jsIncludes v sub
      | none => false)
   | none => false)

/-- Embedding of `testSecurityHeaders` (src/test-suite.js lines 105-134). -/
def testSecurityHeaders (w : World) : List TestResult :=
  tryRecord (do
    let response ← w.fetch websiteURL
    let headers := response.headers
    let passedHeaders := List.countP (fun t => secMatch headers t) securityTests
    let allPassed := passedHeaders == securityTests.length
    pure (logResult "Security: Headers" allPassed
      (toString passedHeaders ++ "/" ++ toString securityTests.length ++
        " security headers correctly configured") none))
   (fun e => logResult "Security: Headers" false ("Error checking headers: " ++ e) none)

/-- Embedding of `testHTTPS` (src/test-suite.js lines 137-145): a pure
string-prefix test on the configured URL, no fetch; the catch handler of
the source is kept, guarding a body that cannot throw. -/
def testHTTPS (_w : World) : List TestResult :=
  tryRecord (do
    let httpsTest := jsStartsWith websiteURL "https://"
    pure (logResult "Security: HTTPS" httpsTest
      (if httpsTest then "Website uses HTTPS encryption" else "Website not using HTTPS") none))
   (fun e => logResult "Security: HTTPS" false ("HTTPS test failed: " ++ e) none)

/-- Rendering of a possibly-absent header inside a template literal
(`null` prints as "null"). -/
def showHeaderU : Option String → String
  | some s => s
  | none => "null"

/-- Embedding of `testCORS` (src/test-suite.js lines 148-159). -/
def testCORS (w : World) : List TestResult :=
  tryRecord (do
    let response ← w.fetch (apiURL "GetBritEdgeInfo")
    let corsHeader := response.headers "Access-Control-Allow-Origin"
    let corsConfigured := corsHeader == some "*" || corsHeader == some websiteURL
    pure (logResult "Security: CORS" corsConfigured
      (if corsConfigured then "CORS properly configured: " ++ showHeaderU corsHeader
       else "CORS not configured correctly") none))
   (fun e => logResult "Security: CORS" false ("CORS test failed: " ++ e) none)

/-- The `endpoints` array of `testResponseTimes` (src/test-suite.js lines 163-168). -/
def perfEndpoints : List (String × String) :=
  [ ("Website", websiteURL)
  , ("GetBritEdgeInfo API", apiURL "GetBritEdgeInfo")
  , ("GetTestimonials API", apiURL "GetTestimonials")
  , ("GetCustomers API", apiURL "GetCustomers") ]

/-- One iteration of the `for (const endpoint of endpoints)` loop of
`testResponseTimes`; `responseTime = endTime - startTime` is the
measured delta carried by the response. -/
def perfCheck (w : World) (ep : String × String) : List TestResult :=
  tryRecord (do
    let response ← w.fetch ep.2
    let responseTime := response.elapsed
    let isGood := decide (responseTime < 2000)
    pure (logResult ("Performance: " ++ ep.1) isGood
      ("Response time: " ++ toString responseTime ++ "ms " ++
        (if isGood then "(Good)" else "(Slow)")) none))
   (fun e => logResult ("Performance: " ++ ep.1) false
      ("Failed to test response time: " ++ e) none)

/-- Embedding of `testResponseTimes` (src/test-suite.js lines 162-185):
one independent record per endpoint, the loop continuing past failures. -/
def testResponseTimes (w : World) : List TestResult :=
  (perfEndpoints.map (fun ep => perfCheck w ep)).flatten

/-- Embedding of `testWebsiteNavigation` (src/test-suite.js lines 188-206). -/
def testWebsiteNavigation (w : World) : List TestResult :=
  tryRecord (do
    let response ← w.fetch websiteURL
    let html := response.textBody
    let hasNavigation := jsIncludes html "nav-link" || jsIncludes html "navigation"
    let hasContent := jsIncludes html "BritEdge" && jsIncludes html "Manufacturing"
    let hasTailwind := jsIncludes html "tailwindcss"
    let functionalityScore := ([hasNavigation, hasContent, hasTailwind].filter (fun b => b)).length
    pure (logResult "Functionality: Website" (functionalityScore == 3)
      ("Website functionality check: " ++ toString functionalityScore ++
        "/3 elements found") none))
   (fun e => logResult "Functionality: Website" false
      ("Website functionality test failed: " ++ e) none)

/-- The `apiEndpoints` array of `testJSONResponses` (src/test-suite.js line 210). -/
def apiEndpoints : List String := ["GetBritEdgeInfo", "GetTestimonials", "GetCustomers"]

/-- The `for (const endpoint of apiEndpoints)` loop of `testJSONResponses`:
each iteration has its own try/catch whose catch clause is empty, so a
throw leaves the counter unchanged and the loop continues. -/
def jsonLoop (w : World) : List String → Nat → Nat
  | [], validResponses => validResponses
  | endpoint :: rest, validResponses =>
      let validResponses2 :=
        match w.fetch (apiURL endpoint) with
        | .error _ => validResponses
        | .ok response =>
          match response.jsonBody with
          | .error _ => validResponses
          | .ok data =>
            if jsTypeofIsObject data && !(jsIsNull data) then validResponses + 1
            else validResponses
      jsonLoop w rest validResponses2

/-- Embedding of `testJSONResponses` (src/test-suite.js lines 209-229). -/
def testJSONResponses (w : World) : List TestResult :=
  let validResponses := jsonLoop w apiEndpoints 0
  let allValid := validResponses == apiEndpoints.length
  [logResult "Functionality: JSON APIs" allValid
    (toString validResponses ++ "/" ++ toString apiEndpoints.length ++
      " APIs return valid JSON") none]

/-- The summary object built by `generateSummary` (src/test-suite.js
lines 285-292): `successRate` is the string `toFixed(1)` produces. -/
structure Summary where
  total : Nat
  passed : Nat
  failed : Nat
  successRate : String
  executionTime : Nat

/-- The full return value of `generateSummary`: the summary plus the
(unchanged) result log. -/
structure SummaryReport where
  summary : Summary
  results : List TestResult

/-- Model of `Number.prototype.toFixed(1)` for nonnegative finite
values, under the exact-rational idealization of IEEE doubles: round
half up to one decimal and render with one digit after the point. -/
def toFixed1 (q : ℚ) : String :=
  let n : Int := round (q * 10)
  toString (n / 10) ++ "." ++ toString (n % 10)

/-- Embedding of `generateSummary` (src/test-suite.js lines 260-295).
`((passedTests / totalTests) * 100).toFixed(1)` at `totalTests = 0` is
JS `0 / 0 = NaN`, rendered "NaN" by `toFixed`; the branch makes that
explicit because rational division by zero in Lean yields 0, not NaN.
`elapsed` stands for `Date.now() - this.startTime`. -/
def generateSummary (results : List TestResult) (elapsed : Nat) : SummaryReport :=
  let totalTests := results.length
  let passedTests := (results.filter (fun r => r.status == "PASS")).length
  let failedTests := totalTests - passedTests
  let successRate :=
    if totalTests == 0 then "NaN"
    else toFixed1 (((passedTests : ℚ) / (totalTests : ℚ)) * 100)
  { summary :=
      { total := totalTests
        passed := passedTests
        failed := failedTests
        successRate := successRate
        executionTime := elapsed }
    results := results }

/-- Embedding of `runAllTests` (src/test-suite.js lines 232-258): the
accumulated result log, each routine awaited in the fixed order.  The
trailing `generateSummary` call is `runAllTestsSummary` below. -/
def runAllTests (w : World) : List TestResult :=
  testGetBritEdgeInfo w ++ testGetTestimonials w ++ testGetCustomers w ++
  testJSONResponses w ++
  testSecurityHeaders w ++ testHTTPS w ++ testCORS w ++
  testResponseTimes w ++
  testWebsiteNavigation w

/-- The summary `runAllTests` produces at its end. -/
def runAllTestsSummary (w : World) (elapsed : Nat) : SummaryReport :=
  generateSummary (runAllTests w) elapsed

/-!
Worlds used to instantiate the network parameter in the theorems below,
and spec-side restatements of the predicates the claims quantify over.
-/

/-- A network in which every request throws the same error message. -/
def errorWorld (e : String) : World := { fetch := fun _ => .error e }

/-- A healthy network whose website response carries the given headers. -/
def headerWorld (h : String → Option String) : World :=
  { fetch := fun _ =>
      .ok { status := 200, headers := h, jsonBody := .ok .null, textBody := "", elapsed := 0 } }

/-- A healthy network whose responses carry the given HTML body. -/
def htmlWorld (html : String) : World :=
  { fetch := fun _ =>
      .ok { status := 200, headers := fun _ => none, jsonBody := .ok .null,
            textBody := html, elapsed := 0 } }

/-- A healthy network whose measured response time per URL is `f`. -/
def timesWorld (f : String → Nat) : World :=
  { fetch := fun u =>
      .ok { status := 200, headers := fun _ => none, jsonBody := .ok .null,
            textBody := "", elapsed := f u } }

/-- A network answering every request with HTTP status `s` and a body on
which `response.json()` throws the parse error `e`. -/
def parseErrWorld (s : Nat) (e : String) : World :=
  { fetch := fun _ =>
      .ok { status := s, headers := fun _ => none, jsonBody := .error e,
            textBody := "", elapsed := 0 } }

/-- A network giving each of the three API endpoints its own
`response.json()` outcome. -/
def jsonWorld (b1 b2 b3 : Except String Json) : World :=
  { fetch := fun u =>
      .ok { status := 200, headers := fun _ => none,
            jsonBody :=
              if u == apiURL "GetBritEdgeInfo" then b1
              else if u == apiURL "GetTestimonials" then b2
              else b3,
            textBody := "", elapsed := 0 } }

/-- A network where the website request throws `e` while every other
request answers healthily with measured time `f`. -/
def siteDownWorld (e : String) (f : String → Nat) : World :=
  { fetch := fun u =>
      if u == websiteURL then .error e
      else .ok { status := 200, headers := fun _ => none, jsonBody := .ok .null,
                 textBody := "", elapsed := f u } }

/-- Spec-side count of matched security headers, written out from the
spec sentence: exact string equality for the first three expected
headers, substring containment of "max-age=" for the fourth. -/
def specMatchCount (h : String → Option String) : Nat :=
  (if h "X-Frame-Options" == some "DENY" then 1 else 0) +
  (if h "X-Content-Type-Options" == some "nosniff" then 1 else 0) +
  (if h "X-XSS-Protection" == some "1; mode=block" then 1 else 0) +
  (if (match h "Strict-Transport-Security" with
       | some v => jsIncludes v "max-age="
       | none => false) then 1 else 0)

/-- Spec-side test that one endpoint returns a parseable, non-null
object (arrays included: JS `typeof` calls them objects). -/
def specJsonValid (w : World) (endpoint : String) : Bool :=
  match w.fetch (apiURL endpoint) with
  | .error _ => false
  | .ok r =>
    match r.jsonBody with
    | .error _ => false
    | .ok j => jsTypeofIsObject j && !(jsIsNull j)

/-- Spec-side count of the fixed endpoints returning a parseable,
non-null object. -/
def specJsonValidCount (w : World) : Nat :=
  List.countP (fun e => specJsonValid w e) apiEndpoints

/-- Spec-side 0-3 score of the website content check: a navigation
test, a content test, and a Tailwind test, each a substring predicate
over the fetched HTML body. -/
def navScore (html : String) : Nat :=
  (jsIncludes html "nav-link" || jsIncludes html "navigation").toNat +
  (jsIncludes html "BritEdge" && jsIncludes html "Manufacturing").toNat +
  (jsIncludes html "tailwindcss").toNat

/-- Spec-side expected record of the response-time check for one
endpoint whose measured delta is `t`: threshold 2000, strict. -/
def perfRecord (name : String) (t : Nat) : TestResult :=
  { test := "Performance: " ++ name
    status := if t < 2000 then "PASS" else "FAIL"
    message := "Response time: " ++ toString t ++ "ms " ++
      (if t < 2000 then "(Good)" else "(Slow)")
    data := none }

/-- The fully correct header assignment of the spec scenario. -/
def goodHeaders : String → Option String := fun n =>
  if n == "X-Frame-Options" then some "DENY"
  else if n == "X-Content-Type-Options" then some "nosniff"
  else if n == "X-XSS-Protection" then some "1; mode=block"
  else if n == "Strict-Transport-Security" then some "max-age=31536000"
  else none

/-!
Claim theorems.
-/

/-- C8: the configured website URL is the hardcoded HTTPS constant, so
the prefix test of `testHTTPS` is always true, its catch branch is
unreachable, and for every network it appends exactly one PASS record
and performs no network call (the result does not depend on the world). -/
theorem c8_https_always_pass : ∀ w : World, testHTTPS w =
    [{ test := "Security: HTTPS", status := "PASS",
       message := "Website uses HTTPS encryption", data := none }] := by
  intro w
  rfl

/-- C5: `generateSummary` is a pure aggregation over the result log:
two calls on the same completed log, even at different clock readings,
yield identical total, passed and failed counts (and the same rendered
success rate), and the log in the returned report is the input log,
unchanged. -/
theorem c5_generateSummary_idempotent :
    ∀ (results : List TestResult) (t1 t2 : Nat),
      (generateSummary results t1).summary.total = (generateSummary results t2).summary.total ∧
      (generateSummary results t1).summary.passed = (generateSummary results t2).summary.passed ∧
      (generateSummary results t1).summary.failed = (generateSummary results t2).summary.failed ∧
      (generateSummary results t1).summary.successRate
        = (generateSummary results t2).summary.successRate ∧
      (generateSummary results t1).results = results := by
  intro results t1 t2
  exact ⟨rfl, rfl, rfl, rfl, rfl⟩

/-- C1 counterexample: on the empty log `generateSummary` performs the
JS division `0 / 0`, whose result NaN is rendered by `toFixed(1)`: the
reported rate is the string "NaN", not an explicit 0% and not
"undefined", so the total = 0 clause of the claim fails on the code. -/
theorem c1_counterexample_nan_rate :
    (generateSummary [] 0).summary.total = 0 ∧
    (generateSummary [] 0).summary.successRate = "NaN" ∧
    ("NaN" : String) ≠ "0.0" ∧ ("NaN" : String) ≠ "0%" ∧
    ("NaN" : String) ≠ "0" ∧ ("NaN" : String) ≠ "undefined" := by
  refine ⟨rfl, rfl, ?_, ?_, ?_, ?_⟩ <;> decide

/-- C1 (amended): for every result log, `generateSummary` satisfies
passed + failed = total, and when total is nonzero the success rate is
passed / total * 100 rounded to one decimal; but for the empty log
(total = 0) the division yields NaN and the reported rate is the string
"NaN", not 0% and not "undefined". -/
theorem c1_summary_invariant :
    ∀ (results : List TestResult) (t : Nat),
      (generateSummary results t).summary.passed + (generateSummary results t).summary.failed
        = (generateSummary results t).summary.total ∧
      ((generateSummary results t).summary.total ≠ 0 →
        (generateSummary results t).summary.successRate =
          toFixed1 ((((generateSummary results t).summary.passed : ℚ) /
            ((generateSummary results t).summary.total : ℚ)) * 100)) ∧
      ((generateSummary results t).summary.total = 0 →
        (generateSummary results t).summary.successRate = "NaN") := by
  intro results t
  refine ⟨?_, ?_, ?_⟩
  · exact Nat.add_sub_cancel' (List.length_filter_le _ _)
  · intro h
    show (if results.length == 0 then "NaN" else toFixed1 _) = _
    rw [if_neg (by simp only [beq_iff_eq]; exact h)]
    rfl
  · intro h
    show (if results.length == 0 then "NaN" else toFixed1 _) = "NaN"
    rw [if_pos (by simp only [beq_iff_eq]; exact h)]

/-- Witness for `c1_summary_invariant` on a concrete two-entry log with
one PASS and one FAIL: the counts add up and the rate is the rounding
of 1/2 * 100. -/
theorem c1_summary_invariant_witness :
    (generateSummary [logResult "a" true "m" none, logResult "b" false "m" none] 7).summary.passed
      + (generateSummary [logResult "a" true "m" none, logResult "b" false "m" none] 7).summary.failed
      = (generateSummary [logResult "a" true "m" none, logResult "b" false "m" none] 7).summary.total ∧
    (generateSummary [logResult "a" true "m" none, logResult "b" false "m" none] 7).summary.successRate
      = toFixed1 ((1 : ℚ) / 2 * 100) := by
  have h := c1_summary_invariant [logResult "a" true "m" none, logResult "b" false "m" none] 7
  refine ⟨h.1, ?_⟩
  have h2 := h.2.1 (by decide)
  rw [h2]
  rw [show (generateSummary [logResult "a" true "m" none, logResult "b" false "m" none] 7).summary.passed
        = 1 from rfl,
      show (generateSummary [logResult "a" true "m" none, logResult "b" false "m" none] 7).summary.total
        = 2 from rfl]
  exact congrArg toFixed1 (by norm_num)

/-- Helper: on a log in which every status is "PASS" or "FAIL", the
difference total minus passed equals the number of FAIL entries. -/
theorem failed_eq_countFail (log : List TestResult)
    (hlog : log.all (fun r => r.status == "PASS" || r.status == "FAIL") = true) :
    log.length - (log.filter (fun r => r.status == "PASS")).length
      = (log.filter (fun r => r.status == "FAIL")).length := by
  induction log with
  | nil => rfl
  | cons r rest ih =>
    simp only [List.all_cons, Bool.and_eq_true] at hlog
    obtain ⟨hr, hrest⟩ := hlog
    have ihh := ih hrest
    have hple := List.length_filter_le (fun x => x.status == "PASS") rest
    rcases Bool.or_eq_true_iff.mp hr with hpass | hfail
    · have hs : r.status = "PASS" := eq_of_beq hpass
      have h1 : List.filter (fun x => x.status == "PASS") (r :: rest)
          = r :: List.filter (fun x => x.status == "PASS") rest := by
        simp [List.filter_cons, hs]
      have h2 : List.filter (fun x => x.status == "FAIL") (r :: rest)
          = List.filter (fun x => x.status == "FAIL") rest := by
        simp [List.filter_cons, hs]
      rw [h1, h2, List.length_cons, List.length_cons]
      omega
    · have hs : r.status = "FAIL" := eq_of_beq hfail
      have h1 : List.filter (fun x => x.status == "PASS") (r :: rest)
          = List.filter (fun x => x.status == "PASS") rest := by
        simp [List.filter_cons, hs]
      have h2 : List.filter (fun x => x.status == "FAIL") (r :: rest)
          = r :: List.filter (fun x => x.status == "FAIL") rest := by
        simp [List.filter_cons, hs]
      rw [h1, h2, List.length_cons, List.length_cons]
      omega

/-- Helper: every record built by `logResult` has status "PASS" or
"FAIL", whatever the arguments. -/
theorem logResult_status_dichotomy
    (calls : List (String × Bool × String × Option Json)) :
    ((calls.map fun c => logResult c.1 c.2.1 c.2.2.1 c.2.2.2).all
      (fun r => r.status == "PASS" || r.status == "FAIL")) = true := by
  induction calls with
  | nil => rfl
  | cons c rest ih =>
    simp only [List.map_cons, List.all_cons, Bool.and_eq_true]
    refine ⟨?_, ih⟩
    rcases c with ⟨n, b, m, d⟩
    cases b <;> simp [logResult]

/-- C10: every entry the log receives through `logResult` has status
exactly "PASS" or "FAIL", so the failed count of the summary, computed
as total minus passed, equals the number of entries with status "FAIL". -/
theorem c10_failed_count_eq_fail_entries :
    ∀ (calls : List (String × Bool × String × Option Json)) (t : Nat),
      ((calls.map fun c => logResult c.1 c.2.1 c.2.2.1 c.2.2.2).all
        (fun r => r.status == "PASS" || r.status == "FAIL")) = true ∧
      (generateSummary (calls.map fun c => logResult c.1 c.2.1 c.2.2.1 c.2.2.2) t).summary.failed
        = ((calls.map fun c => logResult c.1 c.2.1 c.2.2.1 c.2.2.2).filter
            (fun r => r.status == "FAIL")).length := by
  intro calls t
  refine ⟨logResult_status_dichotomy calls, ?_⟩
  exact failed_eq_countFail _ (logResult_status_dichotomy calls)

/-- C9: in each of the three API endpoint checks the body is parsed by
`response.json()` before the status code is inspected, so a response of
ANY status (non-200 included) whose body is unparseable is recorded as
a "Network error" FAIL; and that message can never coincide with the
"HTTP status error" message of the status branch. -/
theorem c9_parse_error_before_status :
    ∀ (s : Nat) (e : String),
      testGetBritEdgeInfo (parseErrWorld s e) =
        [{ test := "API: GetBritEdgeInfo", status := "FAIL",
           message := "Network error: " ++ e, data := none }] ∧
      testGetTestimonials (parseErrWorld s e) =
        [{ test := "API: GetTestimonials", status := "FAIL",
           message := "Network error: " ++ e, data := none }] ∧
      testGetCustomers (parseErrWorld s e) =
        [{ test := "API: GetCustomers", status := "FAIL",
           message := "Network error: " ++ e, data := none }] ∧
      ("Network error: " ++ e) ≠ ("HTTP " ++ toString s ++ " error") := by
  intro s e
  refine ⟨rfl, rfl, rfl, ?_⟩
  intro hcontra
  have hd := congrArg String.data hcontra
  rw [String.data_append, String.data_append, String.data_append] at hd
  have hN : ("Network error: " : String).data = 'N' :: ("etwork error: " : String).data := rfl
  have hH : ("HTTP " : String).data = 'H' :: ("TTP " : String).data := rfl
  rw [hN, hH, List.cons_append, List.cons_append, List.cons_append] at hd
  exact absurd (List.head_eq_of_cons_eq hd) (by decide)

/-- Helper: the `forEach` counter of `testSecurityHeaders` agrees with
the spec-side count of matched headers (the truthiness guard on the
header value is redundant because the empty string contains no
"max-age="). -/
theorem countP_secMatch (h : String → Option String) :
    List.countP (fun t => secMatch h t) securityTests = specMatchCount h := by
  have hsts : ∀ v : String,
      (!(v == "") && jsIncludes v "max-age=") = jsIncludes v "max-age=" := by
    intro v
    rcases hv : v == "" with _ | _
    · simp
    · have hv2 : v = "" := eq_of_beq hv
      subst hv2
      decide
  rcases h4 : h "Strict-Transport-Security" with _ | v
  · simp only [securityTests, List.countP_cons, List.countP_nil, secMatch,
      specMatchCount, h4, Bool.or_false, Bool.false_or]
    omega
  · simp only [securityTests, List.countP_cons, List.countP_nil, secMatch,
      specMatchCount, h4, hsts v, Bool.or_false, Bool.false_or]
    omega

/-- Helper: the one record `testSecurityHeaders` logs, for an arbitrary
header assignment of the website response. -/
theorem testSecurityHeaders_headerWorld (h : String → Option String) :
    testSecurityHeaders (headerWorld h) =
      [logResult "Security: Headers" (specMatchCount h == 4)
        (toString (specMatchCount h) ++ "/4 security headers correctly configured") none] := by
  have hstep : testSecurityHeaders (headerWorld h) =
      [logResult "Security: Headers"
        (List.countP (fun t => secMatch h t) securityTests == securityTests.length)
        (toString (List.countP (fun t => secMatch h t) securityTests) ++ "/" ++
          toString securityTests.length ++ " security headers correctly configured") none] := rfl
  rw [hstep, countP_secMatch h]
  rw [show securityTests.length = 4 from rfl]
  rw [show toString (4 : Nat) = "4" from rfl]
  rw [String.append_assoc, String.append_assoc]
  rfl

/-- C2 counterexample: the `securityTests` table has FOUR entries, not
five; on the fully correct header assignment of the spec scenario the
check reports "4/4" and PASS, so the five-header clause of the claim
fails on the code. -/
theorem c2_counterexample_four_headers :
    securityTests.length = 4 ∧ securityTests.length ≠ 5 ∧
    testSecurityHeaders (headerWorld goodHeaders) =
      [{ test := "Security: Headers", status := "PASS",
         message := "4/4 security headers correctly configured", data := none }] := by
  refine ⟨rfl, by decide, ?_⟩
  rw [testSecurityHeaders_headerWorld goodHeaders]
  rw [show specMatchCount goodHeaders = 4 from by decide]
  rfl

/-- C2 (amended): the security-header check tests FOUR expected
headers, with exact string equality for X-Frame-Options: DENY,
X-Content-Type-Options: nosniff and X-XSS-Protection: 1; mode=block,
and substring containment of "max-age=" for Strict-Transport-Security;
it records PASS exactly when all four match, and its message reports
the count matched out of the four configured. -/
theorem c2_security_headers_four :
    ∀ h : String → Option String,
      testSecurityHeaders (headerWorld h) =
        [{ test := "Security: Headers",
           status := if specMatchCount h == 4 then "PASS" else "FAIL",
           message := toString (specMatchCount h) ++ "/4 security headers correctly configured",
           data := none }] := by
  intro h
  rw [testSecurityHeaders_headerWorld h]
  rfl

/-- Helper: the `filter(Boolean).length` idiom on a three-element bool
array is the sum of the three indicators. -/
theorem filterBoolean_len3 (b1 b2 b3 : Bool) :
    (([b1, b2, b3].filter (fun b => b)).length) = b1.toNat + b2.toNat + b3.toNat := by
  cases b1 <;> cases b2 <;> cases b3 <;> rfl

/-- C7: the website content check combines its three boolean substring
tests over the fetched HTML into a 0-3 score, records PASS exactly when
the score is 3, and always embeds the partial score in the message. -/
theorem c7_website_content_score :
    ∀ html : String,
      testWebsiteNavigation (htmlWorld html) =
        [{ test := "Functionality: Website",
           status := if navScore html == 3 then "PASS" else "FAIL",
           message := "Website functionality check: " ++ toString (navScore html) ++
             "/3 elements found",
           data := none }] ∧
      navScore html ≤ 3 := by
  intro html
  constructor
  · have hstep : testWebsiteNavigation (htmlWorld html) =
        [logResult "Functionality: Website"
          ((([ jsIncludes html "nav-link" || jsIncludes html "navigation"
             , jsIncludes html "BritEdge" && jsIncludes html "Manufacturing"
             , jsIncludes html "tailwindcss" ].filter (fun b => b)).length) == 3)
          ("Website functionality check: " ++
            toString (([ jsIncludes html "nav-link" || jsIncludes html "navigation"
                       , jsIncludes html "BritEdge" && jsIncludes html "Manufacturing"
                       , jsIncludes html "tailwindcss" ].filter (fun b => b)).length) ++
            "/3 elements found") none] := rfl
    rw [hstep, filterBoolean_len3]
    rfl
  · have h1 := Bool.toNat_le (jsIncludes html "nav-link" || jsIncludes html "navigation")
    have h2 := Bool.toNat_le (jsIncludes html "BritEdge" && jsIncludes html "Manufacturing")
    have h3 := Bool.toNat_le (jsIncludes html "tailwindcss")
    simp only [navScore]
    omega

/-- Helper: one iteration of the response-time loop on a healthy
network produces exactly the expected threshold record. -/
theorem perfCheck_timesWorld (f : String → Nat) (ep : String × String) :
    perfCheck (timesWorld f) ep = [perfRecord ep.1 (f ep.2)] := by
  have hstep : perfCheck (timesWorld f) ep =
      [logResult ("Performance: " ++ ep.1) (decide (f ep.2 < 2000))
        ("Response time: " ++ toString (f ep.2) ++ "ms " ++
          (if decide (f ep.2 < 2000) then "(Good)" else "(Slow)")) none] := rfl
  rw [hstep]
  by_cases h : f ep.2 < 2000 <;> simp [logResult, perfRecord, h]

/-- Helper: on a healthy network the response-time check emits one
independent record per fixed endpoint, in order. -/
theorem testResponseTimes_timesWorld (f : String → Nat) :
    testResponseTimes (timesWorld f) =
      [ perfRecord "Website" (f websiteURL)
      , perfRecord "GetBritEdgeInfo API" (f (apiURL "GetBritEdgeInfo"))
      , perfRecord "GetTestimonials API" (f (apiURL "GetTestimonials"))
      , perfRecord "GetCustomers API" (f (apiURL "GetCustomers")) ] := by
  simp [testResponseTimes, perfEndpoints, perfCheck_timesWorld]

/-- C6: the response-time check records one independent PASS/FAIL per
fixed endpoint at strict threshold 2000 of the measured delta; with a
2500ms website and 100ms APIs the website is FAIL while the others
PASS; and a thrown failure on one endpoint does not stop the loop: the
remaining endpoints still get their own records. -/
theorem c6_response_times :
    ∀ (f : String → Nat) (e : String),
      testResponseTimes (timesWorld f) =
        [ perfRecord "Website" (f websiteURL)
        , perfRecord "GetBritEdgeInfo API" (f (apiURL "GetBritEdgeInfo"))
        , perfRecord "GetTestimonials API" (f (apiURL "GetTestimonials"))
        , perfRecord "GetCustomers API" (f (apiURL "GetCustomers")) ] ∧
      testResponseTimes (timesWorld (fun u => if u == websiteURL then 2500 else 100)) =
        [ { test := "Performance: Website", status := "FAIL",
            message := "Response time: 2500ms (Slow)", data := none }
        , { test := "Performance: GetBritEdgeInfo API", status := "PASS",
            message := "Response time: 100ms (Good)", data := none }
        , { test := "Performance: GetTestimonials API", status := "PASS",
            message := "Response time: 100ms (Good)", data := none }
        , { test := "Performance: GetCustomers API", status := "PASS",
            message := "Response time: 100ms (Good)", data := none } ] ∧
      testResponseTimes (siteDownWorld e (fun _ => 100)) =
        [ { test := "Performance: Website", status := "FAIL",
            message := "Failed to test response time: " ++ e, data := none }
        , { test := "Performance: GetBritEdgeInfo API", status := "PASS",
            message := "Response time: 100ms (Good)", data := none }
        , { test := "Performance: GetTestimonials API", status := "PASS",
            message := "Response time: 100ms (Good)", data := none }
        , { test := "Performance: GetCustomers API", status := "PASS",
            message := "Response time: 100ms (Good)", data := none } ] := by
  intro f e
  refine ⟨testResponseTimes_timesWorld f, ?_, ?_⟩
  · rw [testResponseTimes_timesWorld]
    rfl
  · rfl

/-- Helper: the counter of the JSON-validity loop equals the spec-side
count of endpoints returning a parseable, non-null object; individual
throws leave the counter unchanged and never abort the loop. -/
theorem jsonLoop_eq (w : World) : ∀ (es : List String) (acc : Nat),
    jsonLoop w es acc = acc + List.countP (fun e => specJsonValid w e) es := by
  intro es
  induction es with
  | nil => intro acc; simp [jsonLoop, List.countP_nil]
  | cons a rest ih =>
    intro acc
    rw [List.countP_cons]
    have hstep : jsonLoop w (a :: rest) acc = jsonLoop w rest
        (match w.fetch (apiURL a) with
         | .error _ => acc
         | .ok response =>
           match response.jsonBody with
           | .error _ => acc
           | .ok data =>
             if jsTypeofIsObject data && !(jsIsNull data) then acc + 1 else acc) := rfl
    rw [hstep]
    rcases hf : w.fetch (apiURL a) with e | r
    · simp only [hf, ih, specJsonValid]
      simp
    · rcases hb : r.jsonBody with e2 | j
      · simp only [hf, hb, ih, specJsonValid]
        simp
      · simp only [hf, hb, ih, specJsonValid]
        rcases hj : (jsTypeofIsObject j && !(jsIsNull j)) with _ | _
        · simp [hj]
        · simp [hj]
          omega

/-- Helper: the one record `testJSONResponses` logs, for an arbitrary
network. -/
theorem testJSONResponses_eq (w : World) :
    testJSONResponses w =
      [logResult "Functionality: JSON APIs" (specJsonValidCount w == 3)
        (toString (specJsonValidCount w) ++ "/3 APIs return valid JSON") none] := by
  have hstep : testJSONResponses w =
      [logResult "Functionality: JSON APIs" (jsonLoop w apiEndpoints 0 == apiEndpoints.length)
        (toString (jsonLoop w apiEndpoints 0) ++ "/" ++ toString apiEndpoints.length ++
          " APIs return valid JSON") none] := rfl
  rw [hstep, jsonLoop_eq w apiEndpoints 0]
  rw [show apiEndpoints.length = 3 from rfl, show toString (3 : Nat) = "3" from rfl]
  simp only [Nat.zero_add]
  rw [String.append_assoc, String.append_assoc]
  rfl

/-- C4: the JSON-validity check counts, over the fixed three endpoint
names, responses that parse to a non-null object, records PASS exactly
when the count is 3, and absorbs individual parse throws into the count
without aborting the loop; whichever single endpoint throws a parse
error while the other two return objects, it reports "2/3" and FAIL. -/
theorem c4_json_validity :
    ∀ (w : World) (e : String) (f1 f2 : List (String × Json)),
      testJSONResponses w =
        [{ test := "Functionality: JSON APIs",
           status := if specJsonValidCount w == 3 then "PASS" else "FAIL",
           message := toString (specJsonValidCount w) ++ "/3 APIs return valid JSON",
           data := none }] ∧
      testJSONResponses (jsonWorld (.error e) (.ok (.obj f1)) (.ok (.obj f2))) =
        [{ test := "Functionality: JSON APIs", status := "FAIL",
           message := "2/3 APIs return valid JSON", data := none }] ∧
      testJSONResponses (jsonWorld (.ok (.obj f1)) (.error e) (.ok (.obj f2))) =
        [{ test := "Functionality: JSON APIs", status := "FAIL",
           message := "2/3 APIs return valid JSON", data := none }] ∧
      testJSONResponses (jsonWorld (.ok (.obj f1)) (.ok (.obj f2)) (.error e)) =
        [{ test := "Functionality: JSON APIs", status := "FAIL",
           message := "2/3 APIs return valid JSON", data := none }] := by
  intro w e f1 f2
  refine ⟨?_, ?_, ?_, ?_⟩
  · rw [testJSONResponses_eq]
    rfl
  · rw [testJSONResponses_eq]
    rw [show specJsonValidCount (jsonWorld (.error e) (.ok (.obj f1)) (.ok (.obj f2)))
          = 2 from rfl]
    rfl
  · rw [testJSONResponses_eq]
    rw [show specJsonValidCount (jsonWorld (.ok (.obj f1)) (.error e) (.ok (.obj f2)))
          = 2 from rfl]
    rfl
  · rw [testJSONResponses_eq]
    rw [show specJsonValidCount (jsonWorld (.ok (.obj f1)) (.ok (.obj f2)) (.error e))
          = 2 from rfl]
    rfl

/-- Helper: a try/catch routine logs exactly one record, whether the
body runs to completion or throws. -/
theorem length_tryRecord (b : Except String TestResult) (f : String → TestResult) :
    (tryRecord b f).length = 1 := by
  cases b <;> rfl

/-- Helper: the info check logs exactly one record on every network. -/
theorem length_testGetBritEdgeInfo (w : World) : (testGetBritEdgeInfo w).length = 1 :=
  length_tryRecord _ _

/-- Helper: the testimonials check logs exactly one record on every network. -/
theorem length_testGetTestimonials (w : World) : (testGetTestimonials w).length = 1 :=
  length_tryRecord _ _

/-- Helper: the customers check logs exactly one record on every network. -/
theorem length_testGetCustomers (w : World) : (testGetCustomers w).length = 1 :=
  length_tryRecord _ _

/-- Helper: the JSON-validity check logs exactly one record on every network. -/
theorem length_testJSONResponses (w : World) : (testJSONResponses w).length = 1 := rfl

/-- Helper: the header check logs exactly one record on every network. -/
theorem length_testSecurityHeaders (w : World) : (testSecurityHeaders w).length = 1 :=
  length_tryRecord _ _

/-- Helper: the HTTPS check logs exactly one record on every network. -/
theorem length_testHTTPS (w : World) : (testHTTPS w).length = 1 :=
  length_tryRecord _ _

/-- Helper: the CORS check logs exactly one record on every network. -/
theorem length_testCORS (w : World) : (testCORS w).length = 1 :=
  length_tryRecord _ _

/-- Helper: each response-time iteration logs exactly one record. -/
theorem length_perfCheck (w : World) (ep : String × String) : (perfCheck w ep).length = 1 :=
  length_tryRecord _ _

/-- Helper: the response-time check logs exactly four records on every network. -/
theorem length_testResponseTimes (w : World) : (testResponseTimes w).length = 4 := by
  simp [testResponseTimes, perfEndpoints, length_perfCheck]

/-- Helper: the website content check logs exactly one record on every network. -/
theorem length_testWebsiteNavigation (w : World) : (testWebsiteNavigation w).length = 1 :=
  length_tryRecord _ _

/-- C3: every check routine catches any thrown network or parse error
inside itself, recording it as a FAIL whose message embeds the error
text, and never propagates it: on EVERY network the full run logs
exactly 12 records (so no failure ever prevents later checks), and on a
network where every request throws `e`, each fetching routine records
its own FAIL line embedding `e` (the JSON loop absorbing all three
throws into a 0/3 count). -/
theorem c3_errors_caught_and_isolated :
    ∀ (w : World) (e : String),
      (runAllTests w).length = 12 ∧
      testGetBritEdgeInfo (errorWorld e) =
        [{ test := "API: GetBritEdgeInfo", status := "FAIL",
           message := "Network error: " ++ e, data := none }] ∧
      testGetTestimonials (errorWorld e) =
        [{ test := "API: GetTestimonials", status := "FAIL",
           message := "Network error: " ++ e, data := none }] ∧
      testGetCustomers (errorWorld e) =
        [{ test := "API: GetCustomers", status := "FAIL",
           message := "Network error: " ++ e, data := none }] ∧
      testJSONResponses (errorWorld e) =
        [{ test := "Functionality: JSON APIs", status := "FAIL",
           message := "0/3 APIs return valid JSON", data := none }] ∧
      testSecurityHeaders (errorWorld e) =
        [{ test := "Security: Headers", status := "FAIL",
           message := "Error checking headers: " ++ e, data := none }] ∧
      testCORS (errorWorld e) =
        [{ test := "Security: CORS", status := "FAIL",
           message := "CORS test failed: " ++ e, data := none }] ∧
      testResponseTimes (errorWorld e) =
        [ { test := "Performance: Website", status := "FAIL",
            message := "Failed to test response time: " ++ e, data := none }
        , { test := "Performance: GetBritEdgeInfo API", status := "FAIL",
            message := "Failed to test response time: " ++ e, data := none }
        , { test := "Performance: GetTestimonials API", status := "FAIL",
            message := "Failed to test response time: " ++ e, data := none }
        , { test := "Performance: GetCustomers API", status := "FAIL",
            message := "Failed to test response time: " ++ e, data := none } ] ∧
      testWebsiteNavigation (errorWorld e) =
        [{ test := "Functionality: Website", status := "FAIL",
           message := "Website functionality test failed: " ++ e, data := none }] := by
  intro w e
  refine ⟨?_, rfl, rfl, rfl, ?_, rfl, rfl, rfl, rfl⟩
  · simp [runAllTests, List.length_append, length_testGetBritEdgeInfo,
      length_testGetTestimonials, length_testGetCustomers, length_testJSONResponses,
      length_testSecurityHeaders, length_testHTTPS, length_testCORS,
      length_testResponseTimes, length_testWebsiteNavigation]
  · have hloop : jsonLoop (errorWorld e) apiEndpoints 0 = 0 := rfl
    simp only [testJSONResponses, hloop]
    rfl
